import Mathlib

/-!
Shallow embedding of the session-scoped download orchestration logic of
`src/bot.py` (a Telegram YouTube-downloader bot), together with theorems
settling the specification claims about it.

External collaborators (the yt-dlp engine, the filesystem, the Telegram
transport) are modelled as oracles passed in as explicit arguments; the
control logic itself is translated line by line from the source.
-/

namespace Bot

/-! ## String primitives

Python's `in`, `str.startswith` and `str.replace`, re-implemented by
structural recursion on the character list so that concrete runs reduce
inside the kernel. -/

/-- Does `pat` match at the head of the text? -/
def headMatch : List Char → List Char → Bool
  | [], _ => true
  | _ :: _, [] => false
  | p :: ps, c :: cs => p = c && headMatch ps cs

/-- Does `pat` occur anywhere in the text? -/
def hasSub (pat : List Char) : List Char → Bool
  | [] => pat.isEmpty
  | c :: cs => headMatch pat (c :: cs) || hasSub pat cs

/-- Substring test, embedding Python's `'sub' in text` (used on the known
hostnames at bot.py line 203). -/
def containsSub (text sub : String) : Bool :=
  hasSub sub.data text.data

/-- Embeds Python `text.startswith(pat)`. -/
def strStarts (text pat : String) : Bool :=
  headMatch pat.data text.data

/-- Replace every non-overlapping occurrence of `pat`, leftmost first;
`fuel` bounds the recursion by the text length (each step consumes at
least one character for the non-empty patterns the bot uses).  Embeds
Python `text.replace(pat, rep)`. -/
def replAll (pat rep : List Char) : Nat → List Char → List Char
  | 0, s => s
  | _ + 1, [] => []
  | fuel + 1, c :: cs =>
      if headMatch pat (c :: cs) && !pat.isEmpty then
        rep ++ replAll pat rep fuel (List.drop (pat.length - 1) cs)
      else
        c :: replAll pat rep fuel cs

/-- Embeds Python `text.replace(pat, rep)` on strings. -/
def strReplace (text pat rep : String) : String :=
  ⟨replAll pat.data rep.data text.data.length text.data⟩

/-! ## Download executor (`download_video`, src/bot.py lines 54–106) -/

/-- Metadata record returned by the extraction engine (the Python `info`
dict, restricted to the keys the bot reads). -/
structure Info where
  title : Option String
  uploader : Option String
  duration : Option Nat
  deriving Repr, DecidableEq

/-- Outcome of one invocation of the yt-dlp engine inside `download_video`:
either `extract_info`/`prepare_filename` complete and yield a filename plus
metadata, or they raise with a message.  This is the oracle for the opaque
engine. -/
inductive EngineResult where
  | ok (filename : String) (info : Info)
  | err (msg : String)
  deriving Repr, DecidableEq

/-- Postprocessor entry of the yt-dlp options dict (bot.py lines 65–69). -/
structure PostProc where
  key : String
  preferredcodec : String
  preferredquality : String
  deriving Repr, DecidableEq

/-- The fields of the yt-dlp options dict that `download_video` computes
from its `(download_type, quality)` arguments (bot.py lines 61–92). -/
structure YdlOpts where
  format : String
  postprocessors : List PostProc
  merge_output_format : Option String
  deriving Repr, DecidableEq

/-- Video-branch format string (bot.py lines 75–84). -/
def videoFormatSpec (quality : String) : String :=
  if quality = "best" then
    "bestvideo[ext=mp4]+bestaudio[ext=m4a]/best[ext=mp4]/best"
  else if quality = "720" then
    "bestvideo[height<=720][ext=mp4]+bestaudio[ext=m4a]/best[height<=720]"
  else if quality = "480" then
    "bestvideo[height<=480][ext=mp4]+bestaudio[ext=m4a]/best[height<=480]"
  else if quality = "360" then
    "bestvideo[height<=360][ext=mp4]+bestaudio[ext=m4a]/best[height<=360]"
  else
    "best[ext=mp4]/best"

/-- Options dict built by `download_video` (bot.py lines 61–92): the audio
branch fixes `bestaudio/best` with an MP3/192 post-processing step; the
video branch uses `videoFormatSpec` and merges to mp4. -/
def ydl_opts (download_type quality : String) : YdlOpts :=
  if download_type = "audio" then
    { format := "bestaudio/best"
      postprocessors :=
        [{ key := "FFmpegExtractAudio"
           preferredcodec := "mp3"
           preferredquality := "192" }]
      merge_output_format := none }
  else
    { format := videoFormatSpec quality
      postprocessors := []
      merge_output_format := some "mp4" }

/-- Audio filename fixup (bot.py line 101):
`filename.replace('.webm', '.mp3').replace('.m4a', '.mp3')`. -/
def audioRename (filename : String) : String :=
  strReplace (strReplace filename ".webm" ".mp3") ".m4a" ".mp3"

/-- Embedding of `download_video(url, download_type, quality)`
(bot.py lines 54–106).  The first component is the options dict it
builds; the second mirrors the Python return value: on success
`(filename, info)`, and when the engine raises, the `except` branch
returns `(None, str(e))`.  `Sum.inl` holds the info dict, `Sum.inr` the
error string. -/
def download_video (download_type quality : String) (engine : EngineResult) :
    YdlOpts × Option String × (Info ⊕ String) :=
  (ydl_opts download_type quality,
   match engine with
   | .ok filename info =>
       (some (if download_type = "audio" then audioRename filename else filename),
        Sum.inl info)
   | .err msg => (none, Sum.inr msg))

/-! ## Session state (`context.user_data`) -/

/-- One child entry of a playlist info dict: the bot reads `entry.get('url')`
and `entry.get('id')` (bot.py line 457). -/
structure Entry where
  url : Option String
  id : Option String
  deriving Repr, DecidableEq

/-- The info dict as seen by `handle_message`: classification inspects
`'entries' in info` (bot.py line 217); a playlist carries a list of
possibly-`None` child entries. -/
structure MediaInfo where
  title : Option String
  duration : Option Nat
  entries : Option (List (Option Entry))
  deriving Repr, DecidableEq

/-- The keys of `context.user_data` that the bot ever writes; `none`
models an absent key.  `context.user_data.clear()` is `Session.empty`. -/
structure Session where
  current_url : Option String
  is_playlist : Option Bool
  playlist_info : Option MediaInfo
  download_type : Option String
  quality : Option String
  deriving Repr, DecidableEq

/-- The cleared `user_data` dict. -/
def Session.empty : Session :=
  { current_url := none, is_playlist := none, playlist_info := none
    download_type := none, quality := none }

/-- Python truthiness of an optional string (`if not url:` treats both a
missing key and the empty string as false). -/
def strTruthy : Option String → Bool
  | none => false
  | some s => s ≠ ""

/-! ## `handle_message` (bot.py lines 198–269) -/

/-- Messages / prompts `handle_message` can emit or edit in. -/
inductive HMsg where
  | notALink
  | analyzing
  | couldNotFetch
  | playlistMenu (title : String) (count : Nat)
  | videoMenu (title : String)
  deriving Repr, DecidableEq

/-- Embedding of `handle_message` (bot.py lines 198–269).  `classify` is
the oracle for `get_video_info` (bot.py lines 38–52), which returns `None`
on any extraction failure.  Returns the updated `user_data` and the
messages emitted, in order.  Note the source stores `current_url` *before*
classifying (line 205). -/
def handle_message (s : Session) (text : String) (classify : Option MediaInfo) :
    Session × List HMsg :=
  if containsSub text "youtube.com" || containsSub text "youtu.be" then
    let s := { s with current_url := some text }
    match classify with
    | none => (s, [.analyzing, .couldNotFetch])
    | some info =>
      match info.entries with
      | some entries =>
          ({ s with is_playlist := some true, playlist_info := some info },
           [.analyzing, .playlistMenu (info.title.getD "Unknown Playlist") entries.length])
      | none =>
          ({ s with is_playlist := some false },
           [.analyzing, .videoMenu (info.title.getD "Unknown")])
  else
    (s, [.notALink])

/-! ## `button_callback` (bot.py lines 271–358) -/

/-- Observable effects of one `button_callback` invocation: prompt edits
and the two download entry points it can hand off to. -/
inductive BtnEff where
  | infoVideoText
  | infoAudioText
  | infoPlaylistText
  | cancelledText
  | qualityMenu
  | typeMenu
  | callStartDownload
  | callStartPlaylistDownload
  deriving Repr, DecidableEq

/-- Embedding of `button_callback` (bot.py lines 271–358): dispatch on the
callback token string, mirroring the source's prefix tests
(`data.startswith('info_')`, `…('quality_')`, `…('playlist_')`) and its
`data.replace(prefix, '')` suffix extraction.  Returns the updated
`user_data` and the effects, in order. -/
def button_callback (s : Session) (data : String) : Session × List BtnEff :=
  if strStarts data "info_" then
    if data = "info_video" then (s, [.infoVideoText])
    else if data = "info_audio" then (s, [.infoAudioText])
    else if data = "info_playlist" then (s, [.infoPlaylistText])
    else (s, [])
  else if data = "cancel" then
    (Session.empty, [.cancelledText])
  else if data = "type_video" then
    (s, [.qualityMenu])
  else if data = "type_audio" then
    ({ s with download_type := some "audio" }, [.callStartDownload])
  else if data = "back_type" then
    (s, [.typeMenu])
  else if strStarts data "quality_" then
    ({ s with download_type := some "video", quality := some (strReplace data "quality_" "") },
     [.callStartDownload])
  else if strStarts data "playlist_" then
    ({ s with download_type := some (strReplace data "playlist_" ""), is_playlist := some true },
     [.callStartPlaylistDownload])
  else
    (s, [])

/-- The recognized callback tokens (spec §6). -/
def recognizedTokens : List String :=
  ["info_video", "info_audio", "info_playlist", "cancel",
   "type_video", "type_audio", "back_type",
   "quality_best", "quality_720", "quality_480", "quality_360",
   "playlist_video", "playlist_audio"]

/-! ## `start_download` (bot.py lines 360–428) -/

/-- Records of attempted transport sends, with the metadata the bot passes
(bot.py lines 401–414 and 485–496).  A `none` duration means the call
omitted the argument. -/
inductive SendRec where
  | audio (title performer : String) (duration : Option Nat)
  | video (caption : String) (supports_streaming : Bool)
  deriving Repr, DecidableEq

/-- Status messages edited/sent during a single-item download. -/
inductive SMsg where
  | urlNotFound
  | downloading
  | tooLarge
  | uploadingMsg
  | doneText
  | uploadError (e : String)
  | downloadFailed (e : String)
  deriving Repr, DecidableEq

/-- Result of one `start_download` run: final `user_data`, the message
edits in order, the transport sends attempted, and whether the artifact
file is still on disk when the coroutine returns. -/
structure SingleRun where
  session : Session
  msgs : List SMsg
  sends : List SendRec
  fileOnDisk : Bool
  deriving Repr, DecidableEq

/-- Embedding of `start_download` (bot.py lines 360–428).  Oracles:
`engine` for the offloaded `download_video` call, `fileMaterialized` for
`os.path.exists(filename)`, `sizeBytes` for `os.path.getsize(filename)`,
and `uploadRaises` for an exception from the transport send.  Both early
`return` branches (missing URL, oversize file at lines 386–393) skip the
final `context.user_data.clear()`. -/
def start_download (s : Session) (engine : EngineResult) (fileMaterialized : Bool)
    (sizeBytes : Nat) (uploadRaises : Option String) : SingleRun :=
  let download_type := s.download_type.getD "video"
  let quality := s.quality.getD "best"
  if strTruthy s.current_url = false then
    { session := s, msgs := [.urlNotFound], sends := [], fileOnDisk := false }
  else
    let fi := (download_video download_type quality engine).2
    match fi.1 with
    | some _fname =>
      if fileMaterialized then
        if 2000 * 1024 * 1024 < sizeBytes then
          { session := s, msgs := [.downloading, .tooLarge], sends := [], fileOnDisk := false }
        else
          let inf := match fi.2 with
            | Sum.inl i => i
            | Sum.inr _ => { title := none, uploader := none, duration := none }
          let send :=
            if download_type = "audio" then
              SendRec.audio (inf.title.getD "Unknown") (inf.uploader.getD "Unknown")
                (some (inf.duration.getD 0))
            else
              SendRec.video ("🎬 " ++ inf.title.getD "Unknown") true
          match uploadRaises with
          | none =>
              { session := Session.empty, msgs := [.downloading, .uploadingMsg, .doneText]
                sends := [send], fileOnDisk := false }
          | some e =>
              { session := Session.empty, msgs := [.downloading, .uploadingMsg, .uploadError e]
                sends := [send], fileOnDisk := false }
      else
        { session := Session.empty
          msgs := [.downloading, .downloadFailed "Unknown error"]
          sends := [], fileOnDisk := false }
    | none =>
      let errText := match fi.2 with
        | Sum.inr m => m
        | Sum.inl _ => "Unknown error"
      { session := Session.empty, msgs := [.downloading, .downloadFailed errText]
        sends := [], fileOnDisk := false }

/-! ## `start_playlist_download` (bot.py lines 430–518) -/

/-- Environment oracle for one batch entry: whether the progress
`send_message` raises, the engine outcome, whether the downloaded file
exists, its size, and whether the artifact send raises. -/
structure EntryEnv where
  progressSendRaises : Bool
  engine : EngineResult
  fileMaterialized : Bool
  sizeBytes : Nat
  uploadRaises : Bool
  deriving Repr, DecidableEq

/-- Messages sent during a batch run. -/
inductive BMsg where
  | noPlaylistInfo
  | startingBatch
  | progress (i total : Nat)
  | summary (succeeded failed total : Nat)
  deriving Repr, DecidableEq

/-- Accumulated observable state of the batch loop (bot.py lines 450–506):
the two counters, messages sent, artifact sends attempted, and the
filenames of artifact files still on disk. -/
structure BatchState where
  success_count : Nat
  fail_count : Nat
  msgs : List BMsg
  sends : List SendRec
  leaked : List String
  deriving Repr, DecidableEq

/-- Loop state before the first entry. -/
def BatchState.init : BatchState :=
  { success_count := 0, fail_count := 0, msgs := [], sends := [], leaked := [] }

/-- Per-entry URL resolution (bot.py line 457):
`entry.get('url') or f"https://youtube.com/watch?v={entry.get('id')}"`.
Total: it always yields a string (a missing id interpolates as `None`). -/
def resolveEntryUrl (e : Entry) : String :=
  match e.url with
  | some u => if u = "" then "https://youtube.com/watch?v=" ++ e.id.getD "None" else u
  | none => "https://youtube.com/watch?v=" ++ e.id.getD "None"

/-- One iteration of the `for i, entry in enumerate(entries, 1)` loop
(bot.py lines 453–506).  A falsy entry hits `continue` before anything
else.  The whole body sits in a `try` whose `except` increments
`fail_count` and continues; in that branch the downloaded file is *not*
removed, so an upload exception leaves the artifact on disk (`leaked`). -/
def batchStep (download_type : String) (total i : Nat) (entry : Option Entry)
    (env : EntryEnv) (st : BatchState) : BatchState :=
  match entry with
  | none => st
  | some _e =>
    let progressDue := i % 5 = 0 || i = 1
    if progressDue && env.progressSendRaises then
      { st with fail_count := st.fail_count + 1 }
    else
      let st := if progressDue then { st with msgs := st.msgs ++ [.progress i total] } else st
      let fi := (download_video download_type "best" env.engine).2
      match fi.1 with
      | some fname =>
        if env.fileMaterialized then
          if 2000 * 1024 * 1024 < env.sizeBytes then
            { st with fail_count := st.fail_count + 1 }
          else
            let inf := match fi.2 with
              | Sum.inl v => v
              | Sum.inr _ => { title := none, uploader := none, duration := none }
            let send :=
              if download_type = "audio" then
                SendRec.audio (inf.title.getD "Unknown") (inf.uploader.getD "Unknown") none
              else
                SendRec.video
                  ("🎬 " ++ inf.title.getD "Unknown" ++ " (" ++ toString i ++ "/" ++ toString total ++ ")")
                  false
            if env.uploadRaises then
              { st with fail_count := st.fail_count + 1, sends := st.sends ++ [send]
                        leaked := st.leaked ++ [fname] }
            else
              { st with success_count := st.success_count + 1, sends := st.sends ++ [send] }
        else
          { st with fail_count := st.fail_count + 1 }
      | none => { st with fail_count := st.fail_count + 1 }

/-- The batch loop itself, threading the 1-based index. -/
def runLoop (download_type : String) (total : Nat) (env : Nat → EntryEnv) :
    List (Option Entry) → Nat → BatchState → BatchState
  | [], _, st => st
  | e :: rest, i, st =>
      runLoop download_type total env rest (i + 1) (batchStep download_type total i e (env i) st)

/-- Result of one `start_playlist_download` run. -/
structure BatchRun where
  session : Session
  msgs : List BMsg
  sends : List SendRec
  leaked : List String
  success_count : Nat
  fail_count : Nat
  deriving Repr, DecidableEq

/-- Embedding of `start_playlist_download` (bot.py lines 430–518): guard
on missing playlist info (early return, no clear), run the loop over the
entries, then send exactly one summary and clear the session. -/
def start_playlist_download (s : Session) (env : Nat → EntryEnv) : BatchRun :=
  let download_type := s.download_type.getD "video"
  match s.playlist_info with
  | none =>
      { session := s, msgs := [.noPlaylistInfo], sends := [], leaked := []
        success_count := 0, fail_count := 0 }
  | some info =>
    match info.entries with
    | none =>
        { session := s, msgs := [.noPlaylistInfo], sends := [], leaked := []
          success_count := 0, fail_count := 0 }
    | some entries =>
      let total := entries.length
      let final := runLoop download_type total env entries 1 BatchState.init
      { session := Session.empty
        msgs := [.startingBatch] ++ final.msgs
                  ++ [.summary final.success_count final.fail_count total]
        sends := final.sends, leaked := final.leaked
        success_count := final.success_count, fail_count := final.fail_count }

/-- Indices of the progress notifications among a message list. -/
def progressIndices (ms : List BMsg) : List Nat :=
  ms.filterMap fun m =>
    match m with
    | .progress i _ => some i
    | _ => none

/-- Number of summary messages among a message list. -/
def summaryCount (ms : List BMsg) : Nat :=
  (ms.filter fun m =>
    match m with
    | .summary _ _ _ => true
    | _ => false).length

/-- Spec-side characterization of the progress cadence, for comparison
with the loop: the 1-based indices (starting at `i`) at which a progress
notification is emitted — those matching the `i == 1 or i % 5 == 0`
cadence whose entry is non-empty and whose notification send does not
itself raise. -/
def progressSchedule (env : Nat → EntryEnv) : List (Option Entry) → Nat → List Nat
  | [], _ => []
  | e :: rest, i =>
      (if e.isSome && (i % 5 = 0 || i = 1) && !(env i).progressSendRaises then [i] else [])
        ++ progressSchedule env rest (i + 1)

/-! ## Concrete inputs used by counterexamples and witnesses -/

/-- A sample metadata record. -/
def infoT : Info := { title := some "T", uploader := some "U", duration := some 33 }

/-- A session as it stands right before a single video download. -/
def sSingle : Session :=
  { current_url := some "https://youtu.be/a", is_playlist := some false
    playlist_info := none, download_type := some "video", quality := some "480" }

/-- A session as it stands right before a single audio download. -/
def sSingleA : Session :=
  { sSingle with download_type := some "audio", quality := none }

/-- Playlist metadata with one real entry. -/
def piOne : MediaInfo :=
  { title := some "P", duration := none
    entries := some [some { url := none, id := some "abc" }] }

/-- Playlist metadata whose single entry is `None` (an unresolvable item,
as yt-dlp's flat extraction produces for unavailable videos). -/
def piGap : MediaInfo :=
  { title := some "P", duration := none, entries := some [none] }

/-- A session about to run a one-entry video batch. -/
def sBatchV : Session :=
  { current_url := some "https://youtube.com/playlist?list=L", is_playlist := some true
    playlist_info := some piOne, download_type := some "video", quality := none }

/-- A session about to run a one-entry audio batch. -/
def sBatchA : Session := { sBatchV with download_type := some "audio" }

/-- A session about to run a batch whose only entry is empty. -/
def sBatchGap : Session := { sBatchV with playlist_info := some piGap }

/-- Constant per-entry environment. -/
def envOf (e : EntryEnv) : Nat → EntryEnv := fun _ => e

/-- Entry environment: download succeeds, file present, oversize artifact. -/
def envBig : Nat → EntryEnv :=
  envOf { progressSendRaises := false, engine := .ok "downloads/v.mp4" infoT
          fileMaterialized := true, sizeBytes := 2000 * 1024 * 1024 + 1
          uploadRaises := false }

/-- Entry environment: download succeeds, small file, but the transport
send raises. -/
def envUpFail : Nat → EntryEnv :=
  envOf { progressSendRaises := false, engine := .ok "downloads/v.mp4" infoT
          fileMaterialized := true, sizeBytes := 100, uploadRaises := true }

/-- Entry environment: everything succeeds. -/
def envOk : Nat → EntryEnv :=
  envOf { progressSendRaises := false, engine := .ok "downloads/v.mp4" infoT
          fileMaterialized := true, sizeBytes := 100, uploadRaises := false }

/-! # Theorems -/

/-- Claim C7: the executor's format selection is a pure, deterministic
function of `(downloadType, quality)`: the options built by
`download_video` do not depend on the engine's behaviour, audio always
maps to `bestaudio/best` normalized to MP3 at 192 kbps, video `best` maps
to best-mp4 video+audio with the two fallback tiers, and 720/480/360 map
to the height-capped mp4-preferring selections with their fallback. -/
theorem c7_format_selection_pure :
    (∀ (dt q : String) (e e' : EngineResult),
        (download_video dt q e).1 = (download_video dt q e').1)
    ∧ (∀ (q : String) (e : EngineResult),
        (download_video "audio" q e).1 =
          { format := "bestaudio/best"
            postprocessors :=
              [{ key := "FFmpegExtractAudio", preferredcodec := "mp3"
                 preferredquality := "192" }]
            merge_output_format := none })
    ∧ (∀ e : EngineResult,
        (download_video "video" "best" e).1 =
          { format := "bestvideo[ext=mp4]+bestaudio[ext=m4a]/best[ext=mp4]/best"
            postprocessors := [], merge_output_format := some "mp4" })
    ∧ (∀ e : EngineResult,
        (download_video "video" "720" e).1 =
          { format := "bestvideo[height<=720][ext=mp4]+bestaudio[ext=m4a]/best[height<=720]"
            postprocessors := [], merge_output_format := some "mp4" })
    ∧ (∀ e : EngineResult,
        (download_video "video" "480" e).1 =
          { format := "bestvideo[height<=480][ext=mp4]+bestaudio[ext=m4a]/best[height<=480]"
            postprocessors := [], merge_output_format := some "mp4" })
    ∧ (∀ e : EngineResult,
        (download_video "video" "360" e).1 =
          { format := "bestvideo[height<=360][ext=mp4]+bestaudio[ext=m4a]/best[height<=360]"
            postprocessors := [], merge_output_format := some "mp4" }) := by
  refine ⟨fun dt q e e' => rfl, fun q e => ?_, fun e => ?_, fun e => ?_, fun e => ?_, fun e => ?_⟩
  · rfl
  · rfl
  · rfl
  · rfl
  · rfl

/-- Claim C10: `download_video` never propagates an exception — when the
engine raises, the failure is returned as `(None, str(e))`; when it
succeeds, the filename (with the audio extension fixup) and info dict are
returned; and a non-`None` filename occurs only when the engine did not
raise. -/
theorem c10_download_video_total :
    (∀ (dt q m : String), (download_video dt q (.err m)).2 = (none, Sum.inr m))
    ∧ (∀ (dt q f : String) (i : Info),
        (download_video dt q (.ok f i)).2 =
          (some (if dt = "audio" then audioRename f else f), Sum.inl i))
    ∧ (∀ (dt q : String) (e : EngineResult) (fn : String),
        (download_video dt q e).2.1 = some fn → ∃ f i, e = .ok f i) := by
  refine ⟨fun dt q m => rfl, fun dt q f i => rfl, fun dt q e fn h => ?_⟩
  cases e with
  | ok f i => exact ⟨f, i, rfl⟩
  | err m => simp [download_video] at h

/-- Witness for C10 at concrete inputs. -/
theorem c10_witness :
    (download_video "audio" "best" (.err "boom")).2 = (none, Sum.inr "boom")
    ∧ (∃ f i, EngineResult.ok "downloads/x.webm" infoT = .ok f i) :=
  ⟨c10_download_video_total.1 "audio" "best" "boom",
   c10_download_video_total.2.2 "audio" "best" (.ok "downloads/x.webm" infoT)
     (audioRename "downloads/x.webm") (by rfl)⟩

/-- Claim C3 counterexample: with a fresh session and a failing classifier,
the could-not-read-link error is shown, yet the session is no longer
empty — the submitted link was committed to `user_data` before
classification ran and is not rolled back. -/
theorem c3_counterexample :
    (handle_message Session.empty "https://youtube.com/watch?v=x" none).1.current_url
        = some "https://youtube.com/watch?v=x"
    ∧ (handle_message Session.empty "https://youtube.com/watch?v=x" none).2
        = [HMsg.analyzing, HMsg.couldNotFetch]
    ∧ (handle_message Session.empty "https://youtube.com/watch?v=x" none).1
        ≠ Session.empty := by
  refine ⟨rfl, rfl, ?_⟩
  decide

/-- Claim C3 amended: on a recognized link whose classification fails, the
user is shown the could-not-read-link error and the classification-derived
fields are untouched, but the raw link itself has already been committed:
the session after the call is exactly the prior session with `current_url`
overwritten by the submitted text. -/
theorem c3_amended (s : Session) (text : String)
    (h : (containsSub text "youtube.com" || containsSub text "youtu.be") = true) :
    handle_message s text none =
      ({ s with current_url := some text }, [HMsg.analyzing, HMsg.couldNotFetch]) := by
  simp only [handle_message, h, if_pos]

/-- Witness for the amended C3 at a concrete link. -/
theorem c3_amended_witness :
    handle_message Session.empty "https://youtu.be/q" none =
      ({ Session.empty with current_url := some "https://youtu.be/q" },
       [HMsg.analyzing, HMsg.couldNotFetch]) :=
  c3_amended Session.empty "https://youtu.be/q" (by decide)

/-- Claim C8 counterexample: the token `quality_999` is outside the
recognized set, yet the button handler is not a no-op on it — it sets
`download_type`/`quality` and invokes the download; the handler dispatches
on the `quality_` prefix, not on the closed token set. -/
theorem c8_counterexample :
    "quality_999" ∉ recognizedTokens
    ∧ button_callback Session.empty "quality_999"
        = ({ Session.empty with download_type := some "video", quality := some "999" },
           [BtnEff.callStartDownload])
    ∧ button_callback Session.empty "quality_999" ≠ (Session.empty, []) := by
  refine ⟨by decide, rfl, by decide⟩

/-- Claim C8 amended: a token outside the recognized set is a strict no-op
(no session change, no effect) provided it also does not start with
`quality_` or `playlist_`; tokens with those prefixes but unrecognized
suffixes mutate the session and start a download instead. -/
theorem c8_amended (s : Session) (data : String)
    (h : data ∉ recognizedTokens)
    (hq : strStarts data "quality_" = false)
    (hp : strStarts data "playlist_" = false) :
    button_callback s data = (s, []) := by
  simp only [recognizedTokens, List.mem_cons, List.not_mem_nil, or_false, not_or] at h
  obtain ⟨h1, h2, h3, h4, h5, h6, h7, h8, h9, h10, h11, h12, h13⟩ := h
  by_cases hi : strStarts data "info_"
  · simp [button_callback, hi, h1, h2, h3]
  · simp [button_callback, hi, h1, h2, h3, h4, h5, h6, h7, hq, hp]

/-- Witness for the amended C8 at a concrete unrecognized token. -/
theorem c8_amended_witness :
    button_callback Session.empty "foobar" = (Session.empty, []) :=
  c8_amended Session.empty "foobar" (by decide) (by decide) (by decide)

/-- Claim C6 counterexample: a single-item download that resolves with the
size limit exceeded reports the too-large error, but returns early with
the session left exactly as it was — `user_data` is not cleared, so the
conversation does not return to Idle. -/
theorem c6_counterexample :
    (start_download sSingle (.ok "downloads/v.mp4" infoT) true
        (2000 * 1024 * 1024 + 1) none).session = sSingle
    ∧ (start_download sSingle (.ok "downloads/v.mp4" infoT) true
        (2000 * 1024 * 1024 + 1) none).msgs = [SMsg.downloading, SMsg.tooLarge]
    ∧ sSingle ≠ Session.empty := by
  refine ⟨rfl, rfl, by decide⟩

/-- Claim C6 amended: after a single-item attempt resolves with delivery
success, a download error, or an upload error, the session is cleared
(back to Idle); the size-limit-exceeded path alone returns early without
clearing it. -/
theorem c6_amended (s : Session) (engine : EngineResult) (mat : Bool)
    (size : Nat) (up : Option String)
    (hurl : strTruthy s.current_url = true)
    (hsz : ∀ f i, engine = .ok f i → mat = true → size ≤ 2000 * 1024 * 1024) :
    (start_download s engine mat size up).session = Session.empty := by
  cases engine with
  | err m => simp [start_download, download_video, hurl]
  | ok f i =>
    cases mat with
    | false => simp [start_download, download_video, hurl]
    | true =>
      have hle := hsz f i rfl rfl
      cases up with
      | none => simp [start_download, download_video, hurl, Nat.not_lt.mpr hle]
      | some e => simp [start_download, download_video, hurl, Nat.not_lt.mpr hle]

/-- Witness for the amended C6: a failed download at a concrete input
clears the session. -/
theorem c6_amended_witness :
    (start_download sSingle (.err "boom") false 0 none).session = Session.empty :=
  c6_amended sSingle (.err "boom") false 0 none (by decide)
    (fun f i h => EngineResult.noConfusion h)

/-- Claim C2 counterexample: in the batch path an oversize artifact is
*not* reported distinctly — the run over one oversize entry produces
exactly the same user-visible messages and counters as a run whose upload
fails, and emits no size-limit report at all. -/
theorem c2_counterexample :
    (start_playlist_download sBatchV envBig).msgs
        = (start_playlist_download sBatchV envUpFail).msgs
    ∧ (start_playlist_download sBatchV envBig).msgs
        = [BMsg.startingBatch, BMsg.progress 1 1, BMsg.summary 0 1 1]
    ∧ (start_playlist_download sBatchV envBig).fail_count = 1
    ∧ (start_playlist_download sBatchV envBig).sends = [] := by
  exact ⟨rfl, rfl, rfl, rfl⟩

/-- Claim C2 amended: in both paths an oversize artifact is deleted,
counted as a failure, and no transport send is attempted; the distinct
size-limit report to the user happens only in the single-item path —
the batch path absorbs it into the failure counter with no per-item
message. -/
theorem c2_amended :
    (∀ (s : Session) (f : String) (i : Info) (mat : Bool) (size : Nat) (up : Option String),
        strTruthy s.current_url = true → mat = true → 2000 * 1024 * 1024 < size →
        start_download s (.ok f i) mat size up =
          { session := s, msgs := [SMsg.downloading, SMsg.tooLarge]
            sends := [], fileOnDisk := false })
    ∧ (∀ (dt : String) (total idx : Nat) (e : Entry) (env : EntryEnv) (st : BatchState)
          (f : String) (i : Info),
        env.progressSendRaises = false → env.engine = .ok f i →
        env.fileMaterialized = true → 2000 * 1024 * 1024 < env.sizeBytes →
        (batchStep dt total idx (some e) env st).fail_count = st.fail_count + 1
        ∧ (batchStep dt total idx (some e) env st).success_count = st.success_count
        ∧ (batchStep dt total idx (some e) env st).sends = st.sends
        ∧ (batchStep dt total idx (some e) env st).leaked = st.leaked) := by
  constructor
  · intro s f i mat size up hurl hmat hsz
    subst hmat
    simp [start_download, download_video, hurl, hsz]
  · intro dt total idx e env st f i hpr heng hmat hsz
    by_cases hd : idx % 5 = 0 ∨ idx = 1 <;>
      simp [batchStep, hpr, heng, hmat, hsz, hd, download_video]

/-- Witness for the amended C2 at concrete inputs: a 2000 MiB + 1 byte
artifact in the single path, and an oversize first batch entry. -/
theorem c2_amended_witness :
    start_download sSingle (.ok "downloads/v.mp4" infoT) true (2000 * 1024 * 1024 + 1) none =
      { session := sSingle, msgs := [SMsg.downloading, SMsg.tooLarge]
        sends := [], fileOnDisk := false }
    ∧ (batchStep "video" 1 1 (some { url := none, id := some "abc" })
          { progressSendRaises := false, engine := .ok "downloads/v.mp4" infoT
            fileMaterialized := true, sizeBytes := 2000 * 1024 * 1024 + 1
            uploadRaises := false } BatchState.init).fail_count
        = BatchState.init.fail_count + 1 :=
  ⟨c2_amended.1 sSingle "downloads/v.mp4" infoT true (2000 * 1024 * 1024 + 1) none
      (by decide) rfl (by norm_num),
   (c2_amended.2 "video" 1 1 { url := none, id := some "abc" }
      { progressSendRaises := false, engine := .ok "downloads/v.mp4" infoT
        fileMaterialized := true, sizeBytes := 2000 * 1024 * 1024 + 1
        uploadRaises := false } BatchState.init "downloads/v.mp4" infoT
      rfl rfl rfl (by norm_num)).1⟩

/-- Claim C9 counterexample: in the batch path an audio delivery omits the
duration and a video delivery omits the streaming-capable flag — the
concrete one-entry batch runs attach `none` as duration and `false` as
the streaming flag. -/
theorem c9_counterexample :
    (start_playlist_download sBatchA envOk).sends = [SendRec.audio "T" "U" none]
    ∧ (start_playlist_download sBatchV envOk).sends
        = [SendRec.video "🎬 T (1/1)" false] := by
  exact ⟨rfl, rfl⟩

/-- Claim C9 amended: the single-item path passes full metadata (audio:
title, performer, duration; video: a caption containing the title plus
the streaming flag set), while the batch path passes audio title and
performer but no duration, and a video caption with the `(i/total)`
suffix but no streaming flag. -/
theorem c9_amended :
    (∀ (s : Session) (f : String) (i : Info) (up : Option String) (size : Nat),
        strTruthy s.current_url = true → s.download_type = some "audio" →
        ¬ 2000 * 1024 * 1024 < size →
        (start_download s (.ok f i) true size up).sends =
          [SendRec.audio (i.title.getD "Unknown") (i.uploader.getD "Unknown")
            (some (i.duration.getD 0))])
    ∧ (∀ (s : Session) (f : String) (i : Info) (up : Option String) (size : Nat),
        strTruthy s.current_url = true → s.download_type = some "video" →
        ¬ 2000 * 1024 * 1024 < size →
        (start_download s (.ok f i) true size up).sends =
          [SendRec.video ("🎬 " ++ i.title.getD "Unknown") true])
    ∧ (∀ (total idx : Nat) (e : Entry) (st : BatchState) (f : String) (i : Info)
          (size : Nat) (upr : Bool),
        ¬ 2000 * 1024 * 1024 < size →
        (batchStep "audio" total idx (some e)
            { progressSendRaises := false, engine := .ok f i
              fileMaterialized := true, sizeBytes := size, uploadRaises := upr } st).sends
          = st.sends ++ [SendRec.audio (i.title.getD "Unknown") (i.uploader.getD "Unknown") none])
    ∧ (∀ (total idx : Nat) (e : Entry) (st : BatchState) (f : String) (i : Info)
          (size : Nat) (upr : Bool),
        ¬ 2000 * 1024 * 1024 < size →
        (batchStep "video" total idx (some e)
            { progressSendRaises := false, engine := .ok f i
              fileMaterialized := true, sizeBytes := size, uploadRaises := upr } st).sends
          = st.sends
              ++ [SendRec.video
                    ("🎬 " ++ i.title.getD "Unknown"
                      ++ " (" ++ toString idx ++ "/" ++ toString total ++ ")") false]) := by
  refine ⟨?_, ?_, ?_, ?_⟩
  · intro s f i up size hurl hdt hsz
    cases up <;> simp [start_download, download_video, hurl, hdt, hsz]
  · intro s f i up size hurl hdt hsz
    cases up <;> simp [start_download, download_video, hurl, hdt, hsz]
  · intro total idx e st f i size upr hsz
    by_cases hd : idx % 5 = 0 ∨ idx = 1 <;>
      cases upr <;> simp [batchStep, download_video, hsz, hd]
  · intro total idx e st f i size upr hsz
    by_cases hd : idx % 5 = 0 ∨ idx = 1 <;>
      cases upr <;> simp [batchStep, download_video, hsz, hd]

/-- Witness for the amended C9: concrete single-item audio and video
deliveries and concrete batch steps. -/
theorem c9_amended_witness :
    (start_download sSingleA (.ok "downloads/v.webm" infoT) true 100 none).sends
        = [SendRec.audio "T" "U" (some 33)]
    ∧ (start_download sSingle (.ok "downloads/v.mp4" infoT) true 100 none).sends
        = [SendRec.video "🎬 T" true]
    ∧ (batchStep "audio" 1 1 (some { url := none, id := some "abc" })
          { progressSendRaises := false, engine := .ok "downloads/v.webm" infoT
            fileMaterialized := true, sizeBytes := 100, uploadRaises := false }
          BatchState.init).sends
        = BatchState.init.sends ++ [SendRec.audio "T" "U" none] :=
  ⟨c9_amended.1 sSingleA "downloads/v.webm" infoT none 100 (by decide) rfl (by norm_num),
   c9_amended.2.1 sSingle "downloads/v.mp4" infoT none 100 (by decide) rfl (by norm_num),
   c9_amended.2.2.1 1 1 { url := none, id := some "abc" } BatchState.init
     "downloads/v.webm" infoT 100 false (by norm_num)⟩

/-- Claim C1 (code bug evaluation): the single-item path deletes the
artifact on every exit path, but the batch path does not — when a batch
entry's transport send raises, the per-entry `except` swallows the error
without deleting the file, so the artifact is still on disk after the run
(here the concrete one-entry batch whose upload raises leaves
`downloads/v.mp4` behind, while the same run's single-path analogue and
every other batch outcome leave nothing). -/
theorem c1_cleanup :
    (∀ (s : Session) (e : EngineResult) (mat : Bool) (size : Nat) (up : Option String),
        (start_download s e mat size up).fileOnDisk = false)
    ∧ (start_playlist_download sBatchV envUpFail).leaked = ["downloads/v.mp4"]
    ∧ (start_playlist_download sBatchV envBig).leaked = []
    ∧ (start_playlist_download sBatchV envOk).leaked = [] := by
  refine ⟨?_, rfl, rfl, rfl⟩
  intro s e mat size up
  by_cases hurl : strTruthy s.current_url = false
  · simp [start_download, hurl]
  · cases e with
    | err m => simp [start_download, download_video, hurl]
    | ok f i =>
      cases mat with
      | false => simp [start_download, download_video, hurl]
      | true =>
        by_cases hsz : 2000 * 1024 * 1024 < size
        · simp [start_download, download_video, hurl, hsz]
        · cases up <;> simp [start_download, download_video, hurl, hsz]

/-! ## Helper lemmas about the batch loop -/

/-- A falsy entry is skipped without any effect (`if not entry: continue`). -/
theorem batchStep_none (dt : String) (total i : Nat) (env : EntryEnv) (st : BatchState) :
    batchStep dt total i none env st = st := rfl

/-- Every non-empty entry increments exactly one of the two counters. -/
theorem batchStep_some_counts (dt : String) (total i : Nat) (e : Entry) (env : EntryEnv)
    (st : BatchState) :
    (batchStep dt total i (some e) env st).success_count
        + (batchStep dt total i (some e) env st).fail_count
      = st.success_count + st.fail_count + 1
    ∧ (batchStep dt total i (some e) env st).success_count ≤ st.success_count + 1
    ∧ (batchStep dt total i (some e) env st).fail_count ≤ st.fail_count + 1 := by
  simp only [batchStep]
  repeat' split
  all_goals simp_arith

/-- The loop's counters total the number of non-empty entries processed. -/
theorem runLoop_counts (dt : String) (total : Nat) (env : Nat → EntryEnv) :
    ∀ (entries : List (Option Entry)) (i : Nat) (st : BatchState),
      (runLoop dt total env entries i st).success_count
          + (runLoop dt total env entries i st).fail_count
        = st.success_count + st.fail_count + entries.countP Option.isSome
  | [], i, st => by simp [runLoop]
  | e :: rest, i, st => by
      have ih := runLoop_counts dt total env rest (i + 1) (batchStep dt total i e (env i) st)
      cases e with
      | none =>
          simpa [runLoop, batchStep_none, List.countP_cons] using ih
      | some a =>
          have hc := (batchStep_some_counts dt total i a (env i) st).1
          simp [runLoop, List.countP_cons] at ih ⊢
          omega

/-- The loop decomposes over list append (the state after a prefix of the
entries is an actual intermediate state of the full run). -/
theorem runLoop_append (dt : String) (total : Nat) (env : Nat → EntryEnv) :
    ∀ (l₁ l₂ : List (Option Entry)) (i : Nat) (st : BatchState),
      runLoop dt total env (l₁ ++ l₂) i st
        = runLoop dt total env l₂ (i + l₁.length) (runLoop dt total env l₁ i st)
  | [], l₂, i, st => by simp [runLoop]
  | e :: rest, l₂, i, st => by
      have h1 : runLoop dt total env ((e :: rest) ++ l₂) i st
          = runLoop dt total env (rest ++ l₂) (i + 1) (batchStep dt total i e (env i) st) := rfl
      have h2 : runLoop dt total env (e :: rest) i st
          = runLoop dt total env rest (i + 1) (batchStep dt total i e (env i) st) := rfl
      have h3 : i + 1 + rest.length = i + (e :: rest).length := by
        simp only [List.length_cons]
        omega
      rw [h1, runLoop_append dt total env rest l₂ (i + 1), h2, h3]

theorem summaryCount_append (a b : List BMsg) :
    summaryCount (a ++ b) = summaryCount a + summaryCount b := by
  simp [summaryCount, List.filter_append]

/-- One loop iteration never emits a summary message. -/
theorem batchStep_summaryCount (dt : String) (total i : Nat) (e : Option Entry)
    (env : EntryEnv) (st : BatchState) :
    summaryCount (batchStep dt total i e env st).msgs = summaryCount st.msgs := by
  cases e with
  | none => rfl
  | some a =>
      simp only [batchStep]
      repeat' split
      all_goals simp [summaryCount_append, summaryCount]

/-- The whole loop never emits a summary message. -/
theorem runLoop_summaryCount (dt : String) (total : Nat) (env : Nat → EntryEnv) :
    ∀ (entries : List (Option Entry)) (i : Nat) (st : BatchState),
      summaryCount (runLoop dt total env entries i st).msgs = summaryCount st.msgs
  | [], _, _ => rfl
  | e :: rest, i, st => by
      rw [runLoop, runLoop_summaryCount dt total env rest (i + 1),
        batchStep_summaryCount]

theorem progressIndices_append (a b : List BMsg) :
    progressIndices (a ++ b) = progressIndices a ++ progressIndices b := by
  simp [progressIndices]

/-- One loop iteration emits a progress notification exactly when the
entry is non-empty, the index matches the cadence, and the notification
send does not itself raise. -/
theorem batchStep_progressIndices (dt : String) (total i : Nat) (e : Option Entry)
    (env : EntryEnv) (st : BatchState) :
    progressIndices (batchStep dt total i e env st).msgs
      = progressIndices st.msgs
          ++ (if e.isSome && (i % 5 = 0 || i = 1) && !env.progressSendRaises
              then [i] else []) := by
  cases e with
  | none => simp [batchStep_none]
  | some a =>
      cases hr : env.progressSendRaises <;>
        cases hd : (decide (i % 5 = 0) || decide (i = 1)) <;>
        · simp only [batchStep, hr, hd]
          repeat' split
          all_goals simp_all [progressIndices_append, progressIndices]

/-- The loop's progress notifications are exactly the spec-side schedule. -/
theorem runLoop_progressIndices (dt : String) (total : Nat) (env : Nat → EntryEnv) :
    ∀ (entries : List (Option Entry)) (i : Nat) (st : BatchState),
      progressIndices (runLoop dt total env entries i st).msgs
        = progressIndices st.msgs ++ progressSchedule env entries i
  | [], _, _ => by simp [runLoop, progressSchedule]
  | e :: rest, i, st => by
      rw [runLoop, runLoop_progressIndices dt total env rest (i + 1),
        batchStep_progressIndices, progressSchedule, List.append_assoc]

/-- Membership in the progress schedule, characterized pointwise. -/
theorem mem_progressSchedule (env : Nat → EntryEnv) :
    ∀ (entries : List (Option Entry)) (i j : Nat),
      j ∈ progressSchedule env entries i ↔
        ∃ k e, entries.get? k = some (some e) ∧ j = i + k
          ∧ (j % 5 = 0 ∨ j = 1) ∧ (env j).progressSendRaises = false
  | [], i, j => by simp [progressSchedule]
  | e :: rest, i, j => by
      rw [progressSchedule, List.mem_append,
        mem_progressSchedule env rest (i + 1) j]
      constructor
      · rintro (hin | ⟨k, a, hget, hjk, hcad, hraise⟩)
        · by_cases hc : (e.isSome && (i % 5 = 0 || i = 1) && !(env i).progressSendRaises) = true
          · rw [if_pos hc] at hin
            simp only [List.mem_singleton] at hin
            subst hin
            simp only [Bool.and_eq_true, Bool.not_eq_true', decide_eq_true_eq,
              Bool.or_eq_true, Option.isSome_iff_exists] at hc
            obtain ⟨⟨⟨a, ha⟩, hcad⟩, hraise⟩ := hc
            exact ⟨0, a, by simp [ha], by omega, hcad, hraise⟩
          · rw [if_neg hc] at hin
            exact absurd hin (List.not_mem_nil j)
        · exact ⟨k + 1, a, by simpa using hget, by omega, hcad, hraise⟩
      · rintro ⟨k, a, hget, hjk, hcad, hraise⟩
        cases k with
        | zero =>
            left
            simp only [List.get?] at hget
            obtain rfl : e = some a := by injection hget
            have hj : j = i := by omega
            have hc : ((some a).isSome
                && (decide (i % 5 = 0) || decide (i = 1))
                && !(env i).progressSendRaises) = true := by
              subst hj
              rcases hcad with h5 | h1
              · simp [h5, hraise]
              · subst h1
                simp [hraise]
            rw [if_pos hc]
            simp [hj]
        | succ k =>
            right
            exact ⟨k, a, by simpa using hget, by omega, hcad, hraise⟩

/-- Claim C4: during a batch run, a skipped empty entry changes nothing;
every non-empty entry increments exactly one of succeeded/failed (so each
increments at most one, and any failure adds exactly one to failed while
the loop continues over all remaining entries); at every prefix of the run
succeeded + failed equals the number of non-empty entries seen so far and
stays ≤ total; and after all entries are processed exactly one summary
message is emitted, reporting the final succeeded, failed and total. -/
theorem c4_batch_accounting (s : Session) (env : Nat → EntryEnv) (info : MediaInfo)
    (entries : List (Option Entry))
    (hpi : s.playlist_info = some info) (he : info.entries = some entries) :
    summaryCount (start_playlist_download s env).msgs = 1
    ∧ BMsg.summary (start_playlist_download s env).success_count
        (start_playlist_download s env).fail_count entries.length
        ∈ (start_playlist_download s env).msgs
    ∧ (start_playlist_download s env).success_count
        + (start_playlist_download s env).fail_count
      = entries.countP Option.isSome
    ∧ (start_playlist_download s env).success_count
        + (start_playlist_download s env).fail_count ≤ entries.length
    ∧ (∀ l₁ l₂ : List (Option Entry), entries = l₁ ++ l₂ →
        runLoop (s.download_type.getD "video") entries.length env entries 1 BatchState.init
          = runLoop (s.download_type.getD "video") entries.length env l₂ (1 + l₁.length)
              (runLoop (s.download_type.getD "video") entries.length env l₁ 1 BatchState.init)
        ∧ (runLoop (s.download_type.getD "video") entries.length env l₁ 1
              BatchState.init).success_count
            + (runLoop (s.download_type.getD "video") entries.length env l₁ 1
                BatchState.init).fail_count
          ≤ entries.length)
    ∧ (∀ (dt : String) (total i : Nat) (envi : EntryEnv) (st : BatchState),
        batchStep dt total i none envi st = st)
    ∧ (∀ (dt : String) (total i : Nat) (e : Entry) (envi : EntryEnv) (st : BatchState),
        (batchStep dt total i (some e) envi st).success_count
            + (batchStep dt total i (some e) envi st).fail_count
          = st.success_count + st.fail_count + 1
        ∧ (batchStep dt total i (some e) envi st).success_count ≤ st.success_count + 1
        ∧ (batchStep dt total i (some e) envi st).fail_count ≤ st.fail_count + 1) := by
  have hcounts := runLoop_counts (s.download_type.getD "video") entries.length env
    entries 1 BatchState.init
  have hsum := runLoop_summaryCount (s.download_type.getD "video") entries.length env
    entries 1 BatchState.init
  simp only [start_playlist_download, hpi, he]
  refine ⟨?_, ?_, ?_, ?_, ?_, ?_, ?_⟩
  · rw [summaryCount_append, summaryCount_append, hsum]
    rfl
  · simp
  · simpa [BatchState.init] using hcounts
  · have hle : entries.countP Option.isSome ≤ entries.length := List.countP_le_length _
    have h0 : BatchState.init.success_count = 0 ∧ BatchState.init.fail_count = 0 := ⟨rfl, rfl⟩
    omega
  · intro l₁ l₂ hsplit
    constructor
    · rw [hsplit]
      exact runLoop_append (s.download_type.getD "video") (l₁ ++ l₂).length env l₁ l₂ 1
        BatchState.init
    · have h1 := runLoop_counts (s.download_type.getD "video") entries.length env l₁ 1
        BatchState.init
      have h2 : l₁.countP Option.isSome ≤ l₁.length := List.countP_le_length _
      have h3 : l₁.length ≤ entries.length := by
        rw [hsplit, List.length_append]
        omega
      have h0 : BatchState.init.success_count = 0 ∧ BatchState.init.fail_count = 0 := ⟨rfl, rfl⟩
      omega
  · intro dt total i envi st
    exact batchStep_none dt total i envi st
  · intro dt total i e envi st
    exact batchStep_some_counts dt total i e envi st

/-- Witness for C4 at a concrete one-entry batch run. -/
theorem c4_witness :
    summaryCount (start_playlist_download sBatchV envOk).msgs = 1
    ∧ (start_playlist_download sBatchV envOk).success_count
        + (start_playlist_download sBatchV envOk).fail_count
      = ([some { url := none, id := some "abc" }] : List (Option Entry)).countP Option.isSome :=
  ⟨(c4_batch_accounting sBatchV envOk piOne [some { url := none, id := some "abc" }]
      rfl rfl).1,
   (c4_batch_accounting sBatchV envOk piOne [some { url := none, id := some "abc" }]
      rfl rfl).2.2.1⟩

/-- Claim C5 counterexample: a batch of `T = 1` entries whose single entry
is empty emits no progress notification at all, although index 1 matches
the cadence — the `continue` for an empty entry fires before the
progress send, so the claimed "for every such i up to T" fails. -/
theorem c5_counterexample :
    progressIndices (start_playlist_download sBatchGap envOk).msgs = []
    ∧ (1 % 5 = 0 ∨ 1 = 1)
    ∧ (start_playlist_download sBatchGap envOk).msgs
        = [BMsg.startingBatch, BMsg.summary 0 0 1] :=
  ⟨rfl, Or.inr rfl, rfl⟩

/-- Claim C5 amended: progress notifications are emitted exactly at the
1-based indices matching the cadence (`i == 1` or `i mod 5 == 0`) whose
entry is non-empty and whose notification send does not itself raise,
and at no other indices. -/
theorem c5_progress_cadence (s : Session) (env : Nat → EntryEnv) (info : MediaInfo)
    (entries : List (Option Entry))
    (hpi : s.playlist_info = some info) (he : info.entries = some entries) (j : Nat) :
    j ∈ progressIndices (start_playlist_download s env).msgs ↔
      ∃ k e, entries.get? k = some (some e) ∧ j = 1 + k
        ∧ (j % 5 = 0 ∨ j = 1) ∧ (env j).progressSendRaises = false := by
  have h := mem_progressSchedule env entries 1 j
  simp only [start_playlist_download, hpi, he]
  rw [progressIndices_append, progressIndices_append,
    runLoop_progressIndices (s.download_type.getD "video") entries.length env
      entries 1 BatchState.init]
  simpa [progressIndices, BatchState.init] using h

/-- Witness for the amended C5 at a concrete one-entry batch and index 1. -/
theorem c5_progress_cadence_witness :
    (1 ∈ progressIndices (start_playlist_download sBatchV envOk).msgs) ↔
      (∃ k e, ([some { url := none, id := some "abc" }] : List (Option Entry)).get? k
          = some (some e) ∧ 1 = 1 + k ∧ (1 % 5 = 0 ∨ 1 = 1)
        ∧ (envOk 1).progressSendRaises = false) :=
  c5_progress_cadence sBatchV envOk piOne [some { url := none, id := some "abc" }] rfl rfl 1

end Bot
